import Mathlib

/-!
Verification of the `options` configuration parser (src/src/options.c,
src/src/options.h, src/src/parse.c).

The development shallowly embeds the scanner / recursive-descent parser for
string-backed inputs (`parse_options`): bytes are `Nat` (0-255), the input
buffer is a `List Nat`, the token stack is a `List Token` with a cursor, and
the mutually recursive parse procedures are modelled as fuel-indexed Lean
functions.  For string inputs `refill` is a no-op and `empty` is true
(`parser->file->handle == NULL`), exactly as in the source, so the embedding
needs no I/O.

Observability: the C code's externally visible actions (invoking a schema
`enter`/`exit` callback, the stderr diagnostic printed by the `accept`
helper, the diagnostics printed by `syntax_error`/`semantic_error`, each
token appended by `tokenize`, and each call to `reduce`/`unshift` together
with the stack state it sees) are recorded in an event trace carried next to
the file state.  Callbacks in the C schema are arbitrary function pointers;
the model carries them as `Option Int`: `none` is a NULL pointer, `some r` a
callback that returns `r`.  The code always passes `NULL` as the user-data
argument of a callback, which the trace records as `none`.
-/

/-! ## Error codes (src/src/options.h, src/src/errors.h) -/

def SYNTAX_ERROR : Int := -1

def SEMANTIC_ERROR : Int := -2

/-- Model artifact: returned when the fuel of the interpreter runs out.  The
C loops have no such exit; all theorems below run with enough fuel that this
code is never produced. -/
def FUEL_OUT : Int := -1000000

/-! ## Token codes (src/src/options.c lines 90-103) -/

def END_OF_FILE : Nat := 0

def SPACE : Nat := 1

def LINE_FEED : Nat := 2

def COMMENT : Nat := 3

def OPTION : Nat := 4

def SECTION : Nat := OPTION ||| 1

def SUBOPTION : Nat := OPTION ||| 2

def INCLUDE : Nat := OPTION ||| 3

def VALUE : Nat := 8

def QUOTED_VALUE : Nat := VALUE ||| 1

/-- Bytes of a Lean string literal (ASCII in all inputs used here). -/
def bytes (s : String) : List Nat := s.data.map Char.toNat

/-- The 256-entry character class table (src/src/options.c lines 106-141):
`1` for space, tab, carriage return; `2` for line feed; `3` for `#`; `4` for
`A-Z`, `a-z`, `0-9`; `8` for the other printable bytes and all bytes with the
high bit set; `-1` otherwise. -/
def table (b : Nat) : Int :=
  if b = 9 ∨ b = 13 ∨ b = 32 then 1
  else if b = 10 then 2
  else if b = 35 then 3
  else if (48 ≤ b ∧ b ≤ 57) ∨ (65 ≤ b ∧ b ≤ 90) ∨ (97 ≤ b ∧ b ≤ 122) then 4
  else if (33 ≤ b ∧ b ≤ 126) ∨ (128 ≤ b ∧ b ≤ 255) then 8
  else -1

/-! ## Data model -/

/-- Source location: `location_t` as used by options.c (`file` field omitted:
string inputs all use the constant name `<string>`). -/
structure Loc where
  line : Nat
  column : Nat
deriving DecidableEq, Repr

/-- Schema node `option_t` (src/src/options.h).  `onEnter`/`onExit`/
`onAccept` model the `enter`/`exit`/`accept` callback pointers: `none` is
NULL, `some r` a callback returning `r`. -/
inductive Opt : Type where
  | mk (code : Nat) (pattern : List Nat) (children : List Opt)
       (onEnter : Option Int) (onExit : Option Int) (onAccept : Option Int)

def Opt.code : Opt → Nat
  | .mk c _ _ _ _ _ => c

def Opt.pattern : Opt → List Nat
  | .mk _ p _ _ _ _ => p

def Opt.children : Opt → List Opt
  | .mk _ _ ch _ _ _ => ch

def Opt.onEnter : Opt → Option Int
  | .mk _ _ _ e _ _ => e

def Opt.onExit : Opt → Option Int
  | .mk _ _ _ _ e _ => e

def Opt.onAccept : Opt → Option Int
  | .mk _ _ _ _ _ a => a

/-- Placeholder used where the C code would dereference a NULL `option`
pointer (a path no claim exercises). -/
def nullOpt : Opt := .mk 0 [] [] none none none

/-- Token (`token_t`, src/src/options.c lines 29-41). -/
structure Token where
  code : Nat
  loc : Loc
  first : Nat
  size : Nat
  opt : Option Opt

def noToken : Token := ⟨0, ⟨0, 0⟩, 0, 0, none⟩

def tokAt (tokens : List Token) (i : Nat) : Token := tokens.getD i noToken

/-- Lexeme (`lexeme_t`, src/src/options.h): location plus `(length, data)`.
`len` is the length value the C code stores in the struct; `data` is the list
of bytes actually present in the buffer from the stored data pointer onward,
truncated to `len` (the C data field is a bare pointer). -/
structure Lexeme where
  loc : Loc
  len : Nat
  data : List Nat
deriving DecidableEq, Repr

/-- Scope frame (`scope_t`, src/src/options.c lines 43-53), minus the
encloser pointer: chains of frames are modelled as lists, innermost first,
whose final element is the synthetic file scope. -/
structure Frame where
  indent : Nat
  identifier : Nat
  opt : Opt

/-- Observable actions, in program order. -/
inductive Event where
  | enterCb (pat : List Nat) (lex : Lexeme) (user : Option Nat) (ret : Int)
  | exitCb (pat : List Nat) (lex : Lexeme) (user : Option Nat) (ret : Int)
  | acceptPrint (pat : List Nat) (val : List Nat)
  | errMsg (msg : String) (loc : Loc)
  | tok (code : Nat) (first : Nat) (size : Nat)
  | reduceCall (idx : Nat) (cursor : Nat) (size : Nat) (fileIndent : Nat)
  | unshiftCall (cursor : Nat)
deriving DecidableEq, Repr

/-- File state (`file_t`, src/src/options.c lines 57-82) for a string-backed
input: buffer bytes plus consumed offset, current location, token stack with
cursor `last`, and the latest-indent token index `indent` (named
`fileIndent` here to avoid clashing with local variables). -/
structure FileState where
  buf : List Nat
  bufFirst : Nat
  loc : Loc
  tokens : List Token
  last : Nat
  fileIndent : Nat

/-- Parser state: the file state plus the recorded event trace. -/
structure PState where
  fs : FileState
  trace : List Event

/-! ## Small helpers of options.c -/

/-- `have_char` (lines 175-180). -/
def have_char (buf : List Nat) (first : Nat) : Int :=
  if first < buf.length then table (buf.getD first 0) else 0

/-- Length of the run consumed by `scan_space` (lines 182-187). -/
def spaceRun : List Nat → Nat
  | [] => 0
  | b :: bs => if table b = 1 then spaceRun bs + 1 else 0

def scan_space (buf : List Nat) (first : Nat) : Nat :=
  first + spaceRun (buf.drop first)

/-- Length of the run consumed by `scan_comment` (lines 189-196): bytes of
positive class other than line feed. -/
def commentRun : List Nat → Nat
  | [] => 0
  | b :: bs => if 0 < table b ∧ b ≠ 10 then commentRun bs + 1 else 0

def scan_comment (buf : List Nat) (first : Nat) : Nat :=
  first + commentRun (buf.drop first)

/-- Length of the run consumed by `scan_identifier` (lines 198-203). -/
def identRun : List Nat → Nat
  | [] => 0
  | b :: bs => if table b = 4 then identRun bs + 1 else 0

def scan_identifier (buf : List Nat) (first : Nat) : Nat :=
  first + identRun (buf.drop first)

/-- Length of the run consumed by `scan_value` (lines 205-212): bytes of
class at least `OPTION` other than a double quote. -/
def valueRun : List Nat → Nat
  | [] => 0
  | b :: bs => if 4 ≤ table b ∧ b ≠ 34 then valueRun bs + 1 else 0

def scan_value (buf : List Nat) (first : Nat) : Nat :=
  first + valueRun (buf.drop first)

/-- Bytes `buf[first .. first+size)` (truncated at the end of the buffer). -/
def extract (buf : List Nat) (first : Nat) (size : Nat) : List Nat :=
  (buf.drop first).take size

/-- `is_indent` (lines 214-226): compares the byte spans of the scope's
indent token and the token at `indentIdx` over the larger of the two sizes
(`size` starts as the encloser's size and is replaced by the enclosed's when
that is larger). -/
def is_indent (fs : FileState) (scopeIndent : Nat) (indentIdx : Nat) : Bool :=
  let encloser := tokAt fs.tokens scopeIndent
  let enclosed := tokAt fs.tokens indentIdx
  let size := if encloser.size < enclosed.size then enclosed.size else encloser.size
  extract fs.buf encloser.first size = extract fs.buf enclosed.first size

/-- `in_scope` (lines 228-240): sign of the size comparison between the
scope's indent token and the token at `indentIdx`. -/
def in_scope (fs : FileState) (scopeIndent : Nat) (indentIdx : Nat) : Int :=
  let encloser := tokAt fs.tokens scopeIndent
  let enclosed := tokAt fs.tokens indentIdx
  if enclosed.size < encloser.size then 1
  else if encloser.size < enclosed.size then -1
  else 0

/-- `matches` (lines 242-248): exact byte equality of pattern and name. -/
def matchesPat (o : Opt) (name : List Nat) : Bool := o.pattern = name

/-- The process-wide `include` schema node (lines 144-145). -/
def includeOpt : Opt := .mk INCLUDE (bytes ("include")) [] none none none

/-- `is_include` (lines 250-260). -/
def is_include (state : Nat) (name : List Nat) : Option Opt :=
  if state &&& (2 ^ OPTION) = 0 then none
  else if ¬ matchesPat includeOpt name then none
  else some includeOpt

/-- `has_option` (lines 262-273): linear search of a section's children. -/
def has_option (o : Opt) (name : List Nat) : Option Opt :=
  if o.code ≠ SECTION then none
  else o.children.find? (fun c => matchesPat c name)

/-- `has_suboption` (lines 316-326). -/
def has_suboption (o : Opt) (name : List Nat) : Option Opt :=
  if o.code ≠ OPTION then none
  else o.children.find? (fun c => matchesPat c name)

/-- The loop and final-check part of `is_option` (lines 297-313).  The
innermost frame of a non-singleton list plays the role of a scope with an
encloser (loop body); the last frame is the file scope (final check).  Note
the loop's memcmp compares `data+outer->size` with `data+inner->size` — the
token SIZES are used as buffer offsets, exactly as in the source. -/
def is_option_walk (fs : FileState) (inner : Token) (name : List Nat) :
    List Frame → Option Opt
  | [] => none
  | [f] =>
      let outer := tokAt fs.tokens f.indent
      if outer.size = 0 ∧ inner.size = 0 then has_option f.opt name else none
  | f :: g :: rest =>
      let outer := tokAt fs.tokens f.indent
      if outer.size ≤ inner.size then
        if extract fs.buf outer.size outer.size = extract fs.buf inner.size outer.size
        then has_option f.opt name else none
      else is_option_walk fs inner name (g :: rest)

/-- `is_option` (lines 275-314).  `frames` is the scope chain, innermost
first; `fs.fileIndent` is the latest indent.  The first branch (scope whose
own indent is not yet fixed) consults the encloser's indent token with a
strict size comparison, again using sizes as memcmp offsets. -/
def is_option (fs : FileState) (frames : List Frame) (state : Nat)
    (name : List Nat) : Option Opt :=
  if state &&& (2 ^ OPTION) = 0 then none
  else
    let inner := tokAt fs.tokens fs.fileIndent
    match frames with
    | f :: g :: rest =>
      if f.indent = 0 then
        let outer := tokAt fs.tokens g.indent
        if outer.size < inner.size then
          if extract fs.buf outer.size outer.size = extract fs.buf inner.size outer.size
          then has_option f.opt name else none
        else is_option_walk fs inner name (g :: rest)
      else is_option_walk fs inner name (f :: g :: rest)
    | other => is_option_walk fs inner name other

/-- `is_suboption` (lines 328-339). -/
def is_suboption (scopeOpt : Opt) (state : Nat) (name : List Nat) : Option Opt :=
  if state &&& (2 ^ SUBOPTION) = 0 then none
  else has_suboption scopeOpt name

/-! ## Tokenizer -/

/-- `tokenize` (lines 357-383): append a token recording the current
location, advance the consumed offset by the token size, and update the
location (`LINE_FEED` starts a new line, everything else advances the
column).  Returns the token's code. -/
def tokenizeTok (p : PState) (code : Nat) (first : Nat) (lastPos : Nat)
    (o : Option Opt) : Nat × PState :=
  let size := lastPos - first
  let t : Token := ⟨code, p.fs.loc, first, size, o⟩
  let loc' : Loc :=
    if code = LINE_FEED then ⟨p.fs.loc.line + 1, 1⟩
    else ⟨p.fs.loc.line, p.fs.loc.column + size⟩
  let fs' := { p.fs with
                 tokens := p.fs.tokens ++ [t],
                 bufFirst := p.fs.bufFirst + size,
                 loc := loc' }
  (code, ⟨fs', p.trace ++ [.tok code first size]⟩)

/-- `syntax_error` (lines 147-159): print the diagnostic, return -1. -/
def syntax_error (p : PState) (loc : Loc) (msg : String) : Int × PState :=
  (SYNTAX_ERROR, { p with trace := p.trace ++ [.errMsg msg loc] })

/-- `semantic_error` (lines 161-173): print the diagnostic, return -2. -/
def semantic_error (p : PState) (loc : Loc) (msg : String) : Int × PState :=
  (SEMANTIC_ERROR, { p with trace := p.trace ++ [.errMsg msg loc] })

/-- Result of the quoted-value loop of `scan_quoted_value` (lines 396-413)
on the bytes after the opening quote: the number of bytes strictly between
the quotes, or the error the loop raises.  A backslash that is not itself
escaped suppresses the closing-quote check for the next byte; a line feed is
an error; running out of input (refill is a no-op for strings) is an
error. -/
inductive QRes where
  | newline
  | unterminated
  | closed (n : Nat)

def quotedRun : Bool → List Nat → QRes
  | _, [] => .unterminated
  | escaped, b :: bs =>
    if b = 10 then .newline
    else if b = 34 ∧ ¬ escaped then .closed 0
    else
      match quotedRun (b = 92 ∧ ¬ escaped) bs with
      | .closed n => .closed (n + 1)
      | r => r

/-- `scan_quoted_value` (lines 385-419).  Precondition in the source: the
current byte is a double quote.  The token's span includes both quotes
(`tokenize(parser, QUOTED_VALUE, first, last+1, NULL)`). -/
def scan_quoted_value (p : PState) : Int × PState :=
  let first := p.fs.bufFirst
  match quotedRun false (p.fs.buf.drop (first + 1)) with
  | .newline => syntax_error p p.fs.loc ("line feed in quoted value")
  | .unterminated => syntax_error p p.fs.loc ("unterminated quoted value")
  | .closed n =>
      let (c, p) := tokenizeTok p QUOTED_VALUE first (first + n + 2) none
      ((c : Int), p)

/-- `scan` (lines 421-491) for a string-backed input, for which `refill`
(lines 347-355) is a no-op and `empty` (lines 341-345) is true.  The
do-while loop around the dispatch only repeats when the buffer was refilled,
so for strings each branch runs once; the `continue` after an identifier run
that reaches the end of the buffer is dead (`empty` is true) and the run is
tokenized as a `VALUE`. -/
def scanTok (p : PState) (frames : List Frame) (state : Nat) : Int × PState :=
  let fs := p.fs
  let first := fs.bufFirst
  if first = fs.buf.length then
    let (c, p) := tokenizeTok p END_OF_FILE first first none
    ((c : Int), p)
  else if fs.buf.getD first 0 = 34 then
    scan_quoted_value p
  else
    let type0 := table (fs.buf.getD first 0)
    if type0 < 0 then syntax_error p fs.loc ("invalid character")
    else
      if first + 1 = fs.buf.length ∧ (type0 = 4 ∨ type0 = 8) then
        -- body entered with last == size: refill reports nothing, break;
        -- a single identifier or value byte at the end of the buffer is
        -- tokenized with its initial class (for class 4 the token keeps
        -- code OPTION and a NULL option pointer).  SPACE/COMMENT/LINE_FEED
        -- single-byte tokens are the same as their general case below.
        let (c, p) := tokenizeTok p type0.toNat first (first + 1) none
        ((c : Int), p)
      else if type0 = 1 then
        let lastPos := scan_space fs.buf (first + 1)
        let (c, p) := tokenizeTok p SPACE first lastPos none
        ((c : Int), p)
      else if type0 = 3 then
        let lastPos := scan_comment fs.buf (first + 1)
        let (c, p) := tokenizeTok p COMMENT first lastPos none
        ((c : Int), p)
      else if type0 = 2 then
        let (c, p) := tokenizeTok p LINE_FEED first (first + 1) none
        ((c : Int), p)
      else if type0 = 4 then
        let lastId := scan_identifier fs.buf (first + 1)
        if lastId = fs.buf.length then
          let (c, p) := tokenizeTok p VALUE first lastId none
          ((c : Int), p)
        else
          let endb := fs.buf.getD lastId 0
          let name := extract fs.buf first (lastId - first)
          match (if endb = 58 then is_include state name else none) with
          | some o =>
              let (c, p) := tokenizeTok p o.code first (lastId + 1) (some o)
              ((c : Int), p)
          | none =>
          match (if endb = 58 then is_option fs frames state name else none) with
          | some o =>
              let (c, p) := tokenizeTok p o.code first (lastId + 1) (some o)
              ((c : Int), p)
          | none =>
          match (if endb = 61 then
                   is_suboption (frames.headD ⟨0, 0, nullOpt⟩).opt state name
                 else none) with
          | some o =>
              let (c, p) := tokenizeTok p o.code first (lastId + 1) (some o)
              ((c : Int), p)
          | none =>
              let lastPos := scan_value fs.buf lastId
              let (c, p) := tokenizeTok p VALUE first lastPos none
              ((c : Int), p)
      else
        let lastPos := scan_value fs.buf (first + 1)
        let (c, p) := tokenizeTok p VALUE first lastPos none
        ((c : Int), p)

/-! ## Token stack operations -/

/-- `shift` (lines 493-519): if the cursor is at the end of the stack, scan
one more token; return the code of the token at the cursor and advance it.
(The reallocation failure paths return OUT_OF_MEMORY; the model assumes
allocation succeeds.)  Result: (code-or-error, token index, state). -/
def shiftTok (p : PState) (frames : List Frame) (state : Nat) :
    Int × Nat × PState :=
  if p.fs.last = p.fs.tokens.length then
    let (c, p') := scanTok p frames state
    if c < 0 then (c, 0, p')
    else
      let idx := p'.fs.last
      ((tokAt p'.fs.tokens idx).code, idx,
       { p' with fs := { p'.fs with last := idx + 1 } })
  else
    let idx := p.fs.last
    ((tokAt p.fs.tokens idx).code, idx,
     { p with fs := { p.fs with last := idx + 1 } })

/-- `unshift` (lines 521-527): decrement the cursor.  The call is recorded
with the cursor value it sees (its precondition asserts cursor > 1). -/
def unshiftTok (p : PState) : PState :=
  { fs := { p.fs with last := p.fs.last - 1 },
    trace := p.trace ++ [.unshiftCall p.fs.last] }

/-- `reduce` (lines 529-548): remove the token at `idx`, shifting later
tokens down, and decrement size and cursor; the latest-indent index is
decremented when it lies past `idx`.  When `idx` equals the current size
(which the function's own asserts forbid but NDEBUG builds execute), the
memmove moves nothing and the decrements drop the last token instead; the
`take (length - 1)` reproduces that.  Each call is recorded together with
the cursor, size and latest-indent values it sees. -/
def reduceTok (p : PState) (idx : Nat) : PState :=
  let fs := p.fs
  let ev := Event.reduceCall idx fs.last fs.tokens.length fs.fileIndent
  { fs := { fs with
      tokens := (fs.tokens.take idx ++ fs.tokens.drop (idx + 1)).take
                  (fs.tokens.length - 1),
      fileIndent := if idx < fs.fileIndent then fs.fileIndent - 1 else fs.fileIndent,
      last := fs.last - 1 },
    trace := p.trace ++ [ev] }

/-! ## Scope entry/exit and accept -/

/-- `enter_scope` (lines 550-563): when the schema node has an `enter`
callback, build the lexeme from the scope's identifier token — location plus
`(token->size, &buffer[token->first])` — and invoke the callback with NULL
user data. -/
def enter_scope (p : PState) (f : Frame) : Int × PState :=
  match f.opt.onEnter with
  | none => (0, p)
  | some r =>
      let t := tokAt p.fs.tokens f.identifier
      let lex : Lexeme := ⟨t.loc, t.size, extract p.fs.buf t.first t.size⟩
      (r, { p with trace := p.trace ++ [.enterCb f.opt.pattern lex none r] })

/-- `exit_scope` (lines 565-583): when the schema node has an `exit`
callback, build the lexeme from the identifier token — the source stores
`token->first` in the lexeme's length field (`{ token->first, data }`) — and
invoke it; then, if the scope has an encloser and its indent token index
exceeds the encloser's, reduce that indent token. -/
def exit_scope (p : PState) (f : Frame) (parents : List Frame) : Int × PState :=
  let step : Int × PState :=
    match f.opt.onExit with
    | none => ((0 : Int), p)
    | some r =>
        let t := tokAt p.fs.tokens f.identifier
        let lex : Lexeme := ⟨t.loc, t.first, extract p.fs.buf t.first t.first⟩
        (r, { p with trace := p.trace ++ [.exitCb f.opt.pattern lex none r] })
  let code := step.1
  let p := step.2
  match parents with
  | [] => (code, p)
  | g :: _ =>
      if g.indent < f.indent then (code, reduceTok p f.indent) else (code, p)

/-- `accept` (lines 585-597): a stub that prints the schema node's pattern
and the token's bytes to stderr and returns 0.  The schema node's `accept`
callback is never consulted. -/
def acceptTok (p : PState) (f : Frame) (t : Token) : Int × PState :=
  (0, { p with
        trace := p.trace ++ [.acceptPrint f.opt.pattern (extract p.fs.buf t.first t.size)] })

/-! ## Parser -/

/-- `state &= ~mask` on an int32-valued bitmask (all states fit in 32 bits). -/
def clearBits (state : Nat) (mask : Nat) : Nat :=
  state &&& (4294967295 ^^^ mask)

def noFrame : Frame := ⟨0, 0, nullOpt⟩

/-- `include_filespec` (lines 980-1001) consults the filesystem through the
`find_file`/`find_next_file` globber (src/src/findfirst.c).  The model fixes
the environment to one where the filespec matches no directory entry, in
which case `find_file` returns 0, the inclusion loop never runs and
`include_filespec` returns 0 with no other effect.  No claim exercises file
inclusion; this collaborator is external I/O. -/
def include_filespec (p : PState) (_filespec : List Nat) : Int × PState :=
  (0, p)

/-- `parse_suboption` (lines 599-619): enter the scope, shift one token with
only `VALUE` permitted; a `LINE_FEED` whose latest indent lies beyond the
scope's indent index reduces the shifted token, a value is accepted;
then exit the scope. -/
def parse_suboption (fuel : Nat) (p : PState) (f : Frame)
    (parents : List Frame) : Int × PState :=
  match fuel with
  | 0 => (FUEL_OUT, p)
  | _ + 1 =>
    let (code, p) := enter_scope p f
    if code < 0 then (code, p)
    else
      let (code, idx, p) := shiftTok p (f :: parents) (2 ^ VALUE)
      if code < 0 then (code, p)
      else if code.toNat = LINE_FEED then
        let p := if f.indent < p.fs.fileIndent then reduceTok p idx else p
        exit_scope p f parents
      else if code.toNat = VALUE ∨ code.toNat = QUOTED_VALUE then
        let (code2, p) := acceptTok p f (tokAt p.fs.tokens idx)
        if code2 < 0 then (code2, p)
        else exit_scope p f parents
      else exit_scope p f parents

/-- `parse_include` (lines 624-675): tolerate one `SPACE`, require a
`VALUE`/`QUOTED_VALUE` filespec, tolerate `SPACE` and `COMMENT`, demand
`LINE_FEED` or `END_OF_FILE` (which is unshifted), hand the filespec to the
include manager, reduce the filespec token. -/
def parse_include (fuel : Nat) (p : PState) (f : Frame)
    (parents : List Frame) : Int × PState :=
  match fuel with
  | 0 => (FUEL_OUT, p)
  | _ + 1 =>
    let (code, idx, p) := shiftTok p (f :: parents) 0
    if code < 0 then (code, p)
    else
      let next : Int × Nat × PState :=
        if code.toNat = SPACE then shiftTok (reduceTok p idx) (f :: parents) 0
        else (code, idx, p)
      let code := next.1
      let idx := next.2.1
      let p := next.2.2
      if code < 0 then (code, p)
      else if code.toNat ≠ VALUE ∧ code.toNat ≠ QUOTED_VALUE then
        semantic_error p (tokAt p.fs.tokens idx).loc
          ("include: directive takes a file name")
      else
        let value := idx
        let (code, idx, p) := shiftTok p (f :: parents) 0
        if code < 0 then (code, p)
        else
          let next2 : Int × Nat × PState :=
            if code.toNat = SPACE then shiftTok (reduceTok p idx) (f :: parents) 0
            else (code, idx, p)
          let code := next2.1
          let idx := next2.2.1
          let p := next2.2.2
          if code < 0 then (code, p)
          else
            let next3 : Int × Nat × PState :=
              if code.toNat = COMMENT then shiftTok (reduceTok p idx) (f :: parents) 0
              else (code, idx, p)
            let code := next3.1
            let idx := next3.2.1
            let p := next3.2.2
            if code < 0 then (code, p)
            else if code.toNat ≠ LINE_FEED ∧ code.toNat ≠ END_OF_FILE then
              semantic_error p (tokAt p.fs.tokens idx).loc
                ("include: directive takes only a file name")
            else
              let p := unshiftTok p
              let t := tokAt p.fs.tokens value
              let (code, p) := include_filespec p (extract p.fs.buf t.first t.size)
              (code, reduceTok p value)

mutual

/-- `parse_option` (lines 677-685): enter the scope, then run the loop with
`SUBOPTION` and `VALUE` permitted. -/
def parse_option (fuel : Nat) (p : PState) (f : Frame)
    (parents : List Frame) : Int × PState :=
  match fuel with
  | 0 => (FUEL_OUT, p)
  | fuel + 1 =>
    let (code, p) := enter_scope p f
    if code < 0 then (code, p)
    else parse_optionLoop fuel p false false (2 ^ SUBOPTION ||| 2 ^ VALUE) f parents

/-- The loop of `parse_option` (lines 687-740).  `indent` and `newline` are
the local flags; `f` carries the scope, whose `indent` field the `SPACE`
branch may fix; the bottom of the loop reduces the shifted token and sets
`indent` to whether the last code was `LINE_FEED` (after a nested parse,
that is the nested parser's return value, as in the source). -/
def parse_optionLoop (fuel : Nat) (p : PState) (indent : Bool)
    (newline : Bool) (state : Nat) (f : Frame) (parents : List Frame) :
    Int × PState :=
  match fuel with
  | 0 => (FUEL_OUT, p)
  | fuel + 1 =>
    let (code, idx, p) := shiftTok p (f :: parents) state
    if code < 0 then (code, p)
    else
      let c := code.toNat
      if c = END_OF_FILE ∨ c &&& OPTION ≠ 0 then
        exit_scope (unshiftTok p) f parents
      else if c = SPACE then
        if indent then
          let f' := if f.indent = 0 ∧
                       in_scope p.fs (parents.headD noFrame).indent idx = -1
                    then { f with indent := idx } else f
          let p := { p with fs := { p.fs with fileIndent := idx } }
          parse_optionLoop fuel p indent newline state f' parents
        else
          parse_optionLoop fuel (reduceTok p idx) false newline state f parents
      else if c = LINE_FEED then
        let p := if f.indent < p.fs.fileIndent ∧
                    (parents.headD noFrame).indent < p.fs.fileIndent
                 then reduceTok p p.fs.fileIndent else p
        let state := state ||| 2 ^ OPTION
        let p := { p with fs := { p.fs with fileIndent := 0 } }
        parse_optionLoop fuel (reduceTok p idx) true true state f parents
      else if c = SUBOPTION then
        let t := tokAt p.fs.tokens idx
        if newline ∧ ¬ is_indent p.fs f.indent p.fs.fileIndent then
          syntax_error p t.loc ("syntax error, bad indent")
        else if newline ∧ in_scope p.fs f.indent p.fs.fileIndent ≠ 0 then
          semantic_error p t.loc ("syntax error, bad indent")
        else
          let g : Frame := ⟨0, idx, t.opt.getD nullOpt⟩
          let (code2, p) := parse_suboption fuel p g (f :: parents)
          if code2 < 0 then (code2, p)
          else
            let state := clearBits state (2 ^ OPTION ||| 2 ^ VALUE)
            parse_optionLoop fuel (reduceTok p idx) (code2 == 2) newline state
              f parents
      else if c = VALUE ∨ c = QUOTED_VALUE then
        let t := tokAt p.fs.tokens idx
        if state &&& 2 ^ VALUE = 0 then
          semantic_error p t.loc ("unexpected literal")
        else if newline ∧ in_scope p.fs f.indent p.fs.fileIndent = 0 then
          semantic_error p t.loc ("scope did not match")
        else
          let (code2, p) := acceptTok p f t
          if code2 < 0 then (code2, p)
          else
            let state := clearBits state (2 ^ OPTION)
            parse_optionLoop fuel (reduceTok p idx) (code2 == 2) newline state
              f parents
      else
        parse_optionLoop fuel (reduceTok p idx) false newline state f parents

/-- `parse_section` (lines 742-751): enter the scope, then run the loop
with no token reclassification permitted until the first line feed. -/
def parse_section (fuel : Nat) (p : PState) (f : Frame)
    (parents : List Frame) : Int × PState :=
  match fuel with
  | 0 => (FUEL_OUT, p)
  | fuel + 1 =>
    let (code, p) := enter_scope p f
    if code < 0 then (code, p)
    else parse_sectionLoop fuel p false 0 f parents

/-- The loop of `parse_section` (lines 752-806).  An `OPTION`-family token
first has its indentation checked bytewise (`is_indent`), then by depth
(`in_scope`): shallower tokens are unshifted for the encloser, deeper ones
are an error, matching ones are dispatched (`OPTION` to `parse_option`,
`SECTION` to `parse_section`, anything else in the family to
`parse_include`). -/
def parse_sectionLoop (fuel : Nat) (p : PState) (indent : Bool)
    (state : Nat) (f : Frame) (parents : List Frame) : Int × PState :=
  match fuel with
  | 0 => (FUEL_OUT, p)
  | fuel + 1 =>
    let (code, idx, p) := shiftTok p (f :: parents) state
    if code < 0 then (code, p)
    else
      let c := code.toNat
      if c = END_OF_FILE then
        exit_scope (unshiftTok p) f parents
      else if c = SPACE then
        if indent then
          let f' := if f.indent = 0 ∧
                       in_scope p.fs (parents.headD noFrame).indent idx = -1
                    then { f with indent := idx } else f
          let p := { p with fs := { p.fs with fileIndent := idx } }
          parse_sectionLoop fuel p indent state f' parents
        else
          parse_sectionLoop fuel (reduceTok p idx) false state f parents
      else if c = LINE_FEED then
        let p := if f.indent < p.fs.fileIndent ∧
                    (parents.headD noFrame).indent < p.fs.fileIndent
                 then reduceTok p p.fs.fileIndent else p
        let state := state ||| 2 ^ OPTION
        let p := { p with fs := { p.fs with fileIndent := 0 } }
        parse_sectionLoop fuel (reduceTok p idx) true state f parents
      else if c &&& OPTION ≠ 0 then
        let t := tokAt p.fs.tokens idx
        if ¬ is_indent p.fs f.indent p.fs.fileIndent then
          syntax_error p t.loc ("syntax error, invalid indentation")
        else if in_scope p.fs f.indent p.fs.fileIndent = 1 then
          exit_scope (unshiftTok p) f parents
        else if in_scope p.fs f.indent p.fs.fileIndent = -1 then
          syntax_error p t.loc ("syntax error, invalid indentation")
        else
          let g : Frame := ⟨0, idx, t.opt.getD nullOpt⟩
          let (code2, p) :=
            if c = OPTION then parse_option fuel p g (f :: parents)
            else if c = SECTION then parse_section fuel p g (f :: parents)
            else parse_include fuel p g (f :: parents)
          if code2 < 0 then (code2, p)
          else parse_sectionLoop fuel (reduceTok p idx) (code2 == 2) state f parents
      else if c ≠ COMMENT then
        syntax_error p (tokAt p.fs.tokens idx).loc ("syntax error")
      else
        parse_sectionLoop fuel (reduceTok p idx) false state f parents

/-- `parse_file` (lines 808-851): the top-level loop.  State permits only
`OPTION`; the scope is the synthetic file scope (no encloser, the sentinel
indent token).  `END_OF_FILE` exits the scope and returns; a retained
file-level indent before an `OPTION`/`SECTION` is a semantic error. -/
def parse_file (fuel : Nat) (p : PState) (f : Frame) : Int × PState :=
  match fuel with
  | 0 => (FUEL_OUT, p)
  | fuel + 1 => parse_fileLoop fuel p false f

/-- The loop of `parse_file` (lines 814-850). -/
def parse_fileLoop (fuel : Nat) (p : PState) (indent : Bool) (f : Frame) :
    Int × PState :=
  match fuel with
  | 0 => (FUEL_OUT, p)
  | fuel + 1 =>
    let (code, idx, p) := shiftTok p [f] (2 ^ OPTION)
    if code < 0 then (code, p)
    else
      let c := code.toNat
      if c = END_OF_FILE then
        exit_scope p f []
      else if c = SPACE then
        if indent then
          let p := { p with fs := { p.fs with fileIndent := idx } }
          parse_fileLoop fuel p indent f
        else
          parse_fileLoop fuel (reduceTok p idx) false f
      else if c = LINE_FEED then
        let p := if p.fs.fileIndent ≠ 0 then reduceTok p p.fs.fileIndent else p
        let p := { p with fs := { p.fs with fileIndent := 0 } }
        parse_fileLoop fuel (reduceTok p idx) true f
      else if c = OPTION ∨ c = SECTION then
        let t := tokAt p.fs.tokens idx
        if p.fs.fileIndent ≠ 0 then
          semantic_error p t.loc ("syntax error, no indentation at file level")
        else
          let g : Frame := ⟨0, idx, t.opt.getD nullOpt⟩
          let (code2, p) :=
            if c = OPTION then parse_option fuel p g [f]
            else parse_section fuel p g [f]
          if code2 < 0 then (code2, p)
          else parse_fileLoop fuel (reduceTok p idx) (code2 == 2) f
      else if c ≠ COMMENT then
        semantic_error p (tokAt p.fs.tokens idx).loc ("syntax error")
      else
        parse_fileLoop fuel (reduceTok p idx) false f

end

/-- The virtual root schema node built by `parse_options` (line 1031): a
`SECTION` with empty pattern wrapping the user-supplied nodes, no
callbacks. -/
def rootOpt (opts : List Opt) : Opt := .mk SECTION [] opts none none none

/-- The reserved zero-length sentinel placed at index 0 of the token stack
(line 1026): a `SPACE` token of size 0 at the initial location. -/
def sentinelTok : Token := ⟨SPACE, ⟨1, 1⟩, 0, 0, none⟩

/-- `parse_options` (lines 1003-1037): parse a byte string.  The file state
starts with the sentinel on the token stack, cursor and size 1, latest
indent 0; the root scope has no encloser, indent index 0 and the virtual
root node.  `_user` is the opaque user pointer, which the source marks
`maybe_unused` and indeed never reads.  The fuel is a model artifact, chosen
large enough that `FUEL_OUT` is unreachable for the runs below. -/
def parse_options (opts : List Opt) (input : List Nat) (_user : Option Nat) :
    Int × PState :=
  let fs : FileState := ⟨input, 0, ⟨1, 1⟩, [sentinelTok], 1, 0⟩
  parse_file (input.length * 16 + 64) ⟨fs, []⟩ ⟨0, 0, rootOpt opts⟩

/-! ## Derived observations -/

/-- The callback invocations in a trace: the `enter` and `exit` callback
calls.  (The model's `acceptTok`, like the source's `accept`, never invokes
a callback, so no accept invocation can occur in any trace.) -/
def callbackEvents (t : List Event) : List Event :=
  t.filter fun e => match e with
    | .enterCb _ _ _ _ => true
    | .exitCb _ _ _ _ => true
    | _ => false

/-- The `accept`-helper diagnostics in a trace (one per value the parser
accepted). -/
def acceptPrints (t : List Event) : List Event :=
  t.filter fun e => match e with
    | .acceptPrint _ _ => true
    | _ => false

/-- Recorded `reduce`/`unshift` calls whose arguments violate the stack
preconditions asserted by the source: `reduce` requires `0 < idx < cursor`
(lines 532-534), `unshift` requires `cursor > 1` (line 524). -/
def stackViolations (t : List Event) : List Event :=
  t.filter fun e => match e with
    | .reduceCall i c _ _ => decide (¬ (0 < i ∧ i < c))
    | .unshiftCall c => decide (¬ (1 < c))
    | _ => false

/-! ## Concrete schemas and runs used by the claims -/

def c1schema : List Opt :=
  [.mk OPTION (bytes ("foo")) [] (some 0) (some 0) (some (-5))]

def c1res : Int × PState := parse_options c1schema (bytes ("foo: 12")) (some 7)

def c2schema : List Opt :=
  [.mk SECTION (bytes ("a"))
     [.mk OPTION (bytes ("b")) [] (some 0) (some 0) (some 0)]
     (some 0) (some 0) (some 0)]

def c2input : List Nat := bytes ("a:\n  b: 1\n\t\tb: 2")

def c2res : Int × PState := parse_options c2schema c2input none

def c3schema : List Opt :=
  [.mk SECTION (bytes ("baz"))
     [.mk OPTION (bytes ("foo")) [] (some 0) (some 0) (some 0),
      .mk OPTION (bytes ("bar")) [] (some 0) (some 0) (some 0)]
     (some 0) (some 0) (some 0)]

def c3res : Int × PState :=
  parse_options c3schema (bytes ("baz:\n  foo: \"foo bar\"\n  bar: baz")) none

def c4schema : List Opt :=
  [.mk OPTION (bytes ("foo")) [] (some 0) (some 0) (some (-7))]

def c4res : Int × PState :=
  parse_options c4schema (bytes ("foo: \"foo bar\"")) none

def c4resEsc : Int × PState :=
  parse_options c4schema (bytes ("foo: \"a\\\"b\"")) none

def c6schema : List Opt :=
  [.mk OPTION (bytes ("foo")) [] (some 0) (some 0) (some 0)]

def c6res : Int × PState := parse_options c6schema (bytes ("foo:\n  1\n")) none

def c6resDeep : Int × PState :=
  parse_options c6schema (bytes ("foo:\n    # c\n  2\n")) none

def c7res : Int × PState := parse_options [] (bytes ("\n \n")) none

def c8schema : List Opt :=
  [.mk SECTION (bytes ("baz"))
     [.mk OPTION (bytes ("foo")) [] (some 0) (some 0) (some 0)]
     (some 0) (some 0) (some 0)]

def c8base : Int × PState :=
  parse_options c8schema (bytes ("baz:\n  foo: 1\n")) none

def c8edit : Int × PState :=
  parse_options c8schema (bytes ("baz:\n    \n  foo: 1\n")) none

def c9res : Int × PState := parse_options [] (bytes ("")) none

/-! ## Claims -/

/-- Claim C1.  The claim states that for every accepted VALUE or
QUOTED_VALUE the parser invokes the matched schema node's `accept` callback
with the node, the lexeme and the user pointer, and that a negative return
aborts the parse with that code.  The code does not: its `accept` helper
(options.c lines 585-597) prints a diagnostic and returns 0 without ever
reading the schema node's `accept` field.  With schema `[option foo]` whose
accept callback returns -5 and input `foo: 12`, the parse accepts the value
(the stub prints pattern `foo` and value `12`), yet returns 0 instead of
-5 and the only callback invocations are `enter` and `exit` — both with
NULL user data rather than the pointer given to `parse_options`. -/
theorem c1_accept_callback_not_invoked :
    c1res.1 = 0 ∧
    Event.acceptPrint (bytes ("foo")) (bytes ("12")) ∈ c1res.2.trace ∧
    callbackEvents c1res.2.trace =
      [Event.enterCb (bytes ("foo")) ⟨⟨1, 1⟩, 4, bytes ("foo:")⟩ none 0,
       Event.exitCb (bytes ("foo")) ⟨⟨1, 1⟩, 0, []⟩ none 0] := by
  exact ⟨by decide, by decide, by decide⟩

/-- Claim C2.  The claim states that schema resolution compares the bytes of
the outer scope's indent span with those of the latest indent span and fails
on a prefix mismatch (for example tab versus space), leaving the identifier
unclassified.  The code's `is_option` (options.c lines 292 and 301-302)
instead passes the token SIZES as the memcmp offsets
(`memcmp(data+outer->size, data+inner->size, outer->size)`), so equal-size
indents always compare equal.  With schema `[section a [option b]]` and
input `a:\n  b: 1\n\t\tb: 2`, the scope indent span is two spaces and the
third line's indent span is two tabs — bytewise different — yet the scanner
still classifies the second `b` (offset 12) as an OPTION token; the parse
then fails only in `parse_section`'s separate byte-correct `is_indent`
check. -/
theorem c2_indent_bytes_ignored_in_resolution :
    extract c2input 3 2 ≠ extract c2input 10 2 ∧
    Event.tok OPTION 12 2 ∈ c2res.2.trace ∧
    c2res.1 = SYNTAX_ERROR ∧
    Event.errMsg ("syntax error, invalid indentation") ⟨3, 3⟩ ∈ c2res.2.trace := by
  exact ⟨by decide, by decide, by decide, by decide⟩

/-- Claim C3.  The claim states that the scenario (schema
`[section baz [option foo, option bar]]`, input
`baz:\n  foo: "foo bar"\n  bar: baz`) returns 0 with callback events
enter(baz) enter(foo) accept(foo) exit(foo) enter(bar) accept(bar) exit(bar)
exit(baz).  The return code is 0 and the enter/exit order is as claimed, but
no accept callback fires (the `accept` helper is a stub that only prints;
its diagnostics for `foo bar` — quotes included — and `baz` do appear), and
the exit lexemes carry the corrupted lengths produced by `exit_scope`. -/
theorem c3_scenario_events_lack_accept_callbacks :
    c3res.1 = 0 ∧
    callbackEvents c3res.2.trace =
      [Event.enterCb (bytes ("baz")) ⟨⟨1, 1⟩, 4, bytes ("baz:")⟩ none 0,
       Event.enterCb (bytes ("foo")) ⟨⟨2, 3⟩, 4, bytes ("foo:")⟩ none 0,
       Event.exitCb (bytes ("foo")) ⟨⟨2, 3⟩, 7, bytes ("foo: \"f")⟩ none 0,
       Event.enterCb (bytes ("bar")) ⟨⟨3, 3⟩, 4, bytes ("bar:")⟩ none 0,
       Event.exitCb (bytes ("bar")) ⟨⟨3, 3⟩, 24, bytes ("bar: baz")⟩ none 0,
       Event.exitCb (bytes ("baz")) ⟨⟨1, 1⟩, 0, []⟩ none 0] ∧
    acceptPrints c3res.2.trace =
      [Event.acceptPrint (bytes ("foo")) (bytes ("\"foo bar\"")),
       Event.acceptPrint (bytes ("bar")) (bytes ("baz"))] := by
  exact ⟨by decide, by decide, by decide⟩

/-- Claim C4.  The claim states that for every accepted QUOTED_VALUE the
lexeme delivered to the accept callback spans exactly the characters between
the quotes, quotes excluded, with no backslash interpretation.  No lexeme is
ever delivered to an accept callback (the `accept` helper is a stub), and
the bytes the stub does process are the full token span INCLUDING both
quotes: for input `foo: "foo bar"` the QUOTED_VALUE token at offset 5 has
size 9 (7 content bytes plus both quotes) and the stub prints
`"foo bar"` with the quotes; for input `foo: "a\"b"` the escape is passed
through raw (`"a\"b"` with backslash and quotes).  The accept callback
returning -7 is never consulted: both parses return 0. -/
theorem c4_quoted_lexeme_not_delivered :
    c4res.1 = 0 ∧
    Event.tok QUOTED_VALUE 5 9 ∈ c4res.2.trace ∧
    Event.acceptPrint (bytes ("foo")) (bytes ("\"foo bar\"")) ∈ c4res.2.trace ∧
    callbackEvents c4res.2.trace =
      [Event.enterCb (bytes ("foo")) ⟨⟨1, 1⟩, 4, bytes ("foo:")⟩ none 0,
       Event.exitCb (bytes ("foo")) ⟨⟨1, 1⟩, 0, []⟩ none 0] ∧
    c4resEsc.1 = 0 ∧
    Event.acceptPrint (bytes ("foo")) (bytes ("\"a\\\"b\"")) ∈ c4resEsc.2.trace := by
  exact ⟨by decide, by decide, by decide, by decide, by decide, by decide⟩

/-- Claim C5.  The claim states that enter and exit callbacks receive the
same lexeme, the identifier token's location and byte span, its length being
the token's byte length.  `enter_scope` (line 561) does build
`{ token->size, data }`, but `exit_scope` (line 576) builds
`{ token->first, data }`: the lexeme length is the token's buffer OFFSET.
In the section scenario, scope foo's identifier token sits at offset 7 with
size 4 (`foo:`): the enter lexeme has length 4 and bytes `foo:`, while the
exit lexeme has length 7 and bytes `foo: "f` — a different lexeme. -/
theorem c5_exit_lexeme_length_is_offset :
    Event.tok OPTION 7 4 ∈ c3res.2.trace ∧
    Event.enterCb (bytes ("foo")) ⟨⟨2, 3⟩, 4, bytes ("foo:")⟩ none 0 ∈ c3res.2.trace ∧
    Event.exitCb (bytes ("foo")) ⟨⟨2, 3⟩, 7, bytes ("foo: \"f")⟩ none 0 ∈ c3res.2.trace ∧
    (⟨⟨2, 3⟩, 7, bytes ("foo: \"f")⟩ : Lexeme) ≠ ⟨⟨2, 3⟩, 4, bytes ("foo:")⟩ := by
  exact ⟨by decide, by decide, by decide, by decide⟩

/-- Claim C6.  The claim states that a VALUE arriving after a newline in
`parse_option` is accepted exactly when `in_scope(latest_indent) = 0` (the
latest indent matches the scope's indent), with "scope did not match"
raised otherwise.  The code tests `newline && !in_scope(...)` (line 727),
which is TRUE exactly when `in_scope` returns 0: the error fires precisely
when the indent matches, and mismatching indents are accepted.  With schema
`[option foo]`: input `foo:\n  1\n` captures the two-space indent as the
option's own scope indent (`in_scope = 0`) and then rejects the value with
"scope did not match"; input `foo:\n    # c\n  2\n` fixes the scope indent
at four spaces and then ACCEPTS the value `2` indented by two
(`in_scope = 1`), returning 0. -/
theorem c6_scope_match_test_inverted :
    c6res.1 = SEMANTIC_ERROR ∧
    Event.errMsg ("scope did not match") ⟨2, 3⟩ ∈ c6res.2.trace ∧
    acceptPrints c6res.2.trace = [] ∧
    c6resDeep.1 = 0 ∧
    Event.acceptPrint (bytes ("foo")) (bytes ("2")) ∈ c6resDeep.2.trace := by
  exact ⟨by decide, by decide, by decide, by decide, by decide⟩

/-- Claim C7.  The claim states that every `reduce(index)` call happens with
`0 < index < cursor` (and every `unshift` with `cursor > 1`), in particular
the bottom-of-loop reduce after a LINE_FEED iteration that already reduced
the latest-indent token.  It does not hold: with no schema and input
`\n \n`, the second line feed makes `parse_file` reduce the retained indent
token (index 1), which shifts the LINE_FEED token down and decrements the
cursor, and the bottom-of-loop `reduce(parser, last)` then runs with the
stale index 2 equal to the cursor 2 — violating `reduce`'s own assertion
`token < tokens.last`.  The run otherwise completes with code 0. -/
theorem c7_reduce_called_with_stale_index :
    c7res.1 = 0 ∧
    stackViolations c7res.2.trace = [Event.reduceCall 2 2 2 0] := by
  exact ⟨by decide, by decide⟩

/-- Claim C8.  The claim states that inserting blank lines or SPACE-only
lines anywhere never changes the callback event stream or the return code.
It does: a SPACE-only line's indentation is captured as a section's pending
scope indent (the SPACE branch runs before the parser can know the line is
blank, and the LINE_FEED branch does not drop an indent token that became
the scope's own), after which correctly indented children no longer resolve.
Schema `[section baz [option foo]]` parses `baz:\n  foo: 1\n` with code 0,
but inserting the SPACE-only line `    \n` directly after `baz:\n` makes the
parse fail with SYNTAX_ERROR and a different (shorter) callback stream. -/
theorem c8_blank_line_changes_result :
    bytes ("baz:\n    \n  foo: 1\n") =
      bytes ("baz:\n") ++ bytes ("    \n") ++ bytes ("  foo: 1\n") ∧
    c8base.1 = 0 ∧
    c8edit.1 = SYNTAX_ERROR ∧
    Event.errMsg ("syntax error") ⟨3, 3⟩ ∈ c8edit.2.trace ∧
    callbackEvents c8base.2.trace ≠ callbackEvents c8edit.2.trace := by
  exact ⟨by decide, by decide, by decide, by decide, by decide⟩

/-- Claim C9.  The claim states that a successful `parse_file` return leaves
only the zero-length sentinel at index 0 on the token stack.  It does not:
the END_OF_FILE token appended by the final scan is never reduced, so even
the empty input finishes with code 0 and TWO stack entries (sentinel plus
EOF token); the successful section scenario finishes with THREE (a retained
indentation token also survives). -/
theorem c9_tokens_remain_after_success :
    c9res.1 = 0 ∧
    c9res.2.fs.tokens = [sentinelTok, ⟨END_OF_FILE, ⟨1, 1⟩, 0, 0, none⟩] ∧
    c9res.2.fs.tokens.length ≠ 1 ∧
    c3res.1 = 0 ∧
    c3res.2.fs.tokens.length = 3 := by
  exact ⟨by decide, rfl, by decide, by decide, by decide⟩

/-- Claim C10.  A top-level `include:` directive is always rejected: for
every schema, scanning `include: x` at file level classifies the identifier
as an INCLUDE token (the OPTION bit is permitted in `parse_file`'s state and
`is_include` is consulted before `is_option`), and `parse_file` dispatches
only the OPTION and SECTION codes, so the INCLUDE token falls into the
catch-all branch: the parse stops with the "syntax error" diagnostic and
`parse_options` returns SEMANTIC_ERROR, whatever the schema and user
pointer. -/
theorem c10_top_level_include_rejected :
    ∀ (opts : List Opt) (u : Option Nat),
      (parse_options opts (bytes ("include: x")) u).1 = SEMANTIC_ERROR ∧
      (parse_options opts (bytes ("include: x")) u).2.trace =
        [Event.tok INCLUDE 0 8, Event.errMsg ("syntax error") ⟨1, 1⟩] := by
  intro opts u
  exact ⟨rfl, rfl⟩

/-- Instantiation of the previous theorem at the empty schema and absent
user pointer. -/
theorem c10_top_level_include_rejected_witness :
    (parse_options [] (bytes ("include: x")) none).1 = SEMANTIC_ERROR ∧
    (parse_options [] (bytes ("include: x")) none).2.trace =
      [Event.tok INCLUDE 0 8, Event.errMsg ("syntax error") ⟨1, 1⟩] :=
  c10_top_level_include_rejected [] none
